import Mathlib

/-!
Verification development for the desqueeze-daemon repository
(files `desqueeze_daemon/daemon.py` and `desqueeze_daemon/scheduler.py`).

The Python code is shallowly embedded below:
pure computations become Lean functions, the IEEE-754 double arithmetic
that CPython performs is modelled exactly over `ℕ`, image-library calls
become operations recorded in a trace, and code that can raise becomes
`Except`-valued steps whose outcomes are parameters.
-/

/-! ## Metadata model

`exiftool -j` returns a JSON record; each tag value relevant here is
either a JSON string or a JSON number.  Python compares them with `==`
and `in`, which never identifies a string with a number, so a two-case
sum is a faithful model of the values the code inspects. -/

/-- A metadata tag value as produced by the exiftool JSON reader:
either a string or a number. -/
inductive ExifValue where
  | str (s : String)
  | num (q : ℚ)
deriving DecidableEq

/-- The metadata fields of one image that `daemon.py` reads:
`FileType`, `FocalLength` and `FNumber`. -/
structure ImageMetadata where
  FileType : String
  FocalLength : ExifValue
  FNumber : ExifValue
deriving DecidableEq

/-- Source constant `POSSIBLE_ANAMORPHIC_FOCAL_LENGTHS = [0, 24, 50]`. -/
def POSSIBLE_ANAMORPHIC_FOCAL_LENGTHS : List ℕ := [0, 24, 50]

/-- Numeric value of a digit run, as Python `int` on a decimal-digit
string: fold over the digits in order. -/
def natOfDigits (ds : List Char) : ℕ :=
  ds.foldl (fun n c => n * 10 + (c.toNat - 48)) 0

/-- The regex match `re.match(r"(\d+)\.\d+ mm", s)` from
`Daemon.is_anamorphic`, returning `int(match.group(1))` on success.
`re.match` anchors at the start of the string only, so any trailing
characters after `" mm"` are accepted; `\d+` is greedy and, being
followed by a non-digit literal, consumes exactly the maximal digit
run, so deterministic maximal-munch parsing models the regex.  Digits
are modelled as ASCII digits. -/
def parseFocal (cs : List Char) : Option ℕ :=
  let d1 := cs.takeWhile (fun c => c.isDigit)
  let r1 := cs.dropWhile (fun c => c.isDigit)
  if d1 = [] then none
  else
    match r1 with
    | '.' :: rest =>
      let d2 := rest.takeWhile (fun c => c.isDigit)
      let r2 := rest.dropWhile (fun c => c.isDigit)
      if d2 = [] then none
      else
        match r2 with
        | ' ' :: 'm' :: 'm' :: _ => some (natOfDigits d1)
        | _ => none
    | _ => none

/-- The Python membership test `image_metadata["FNumber"] in ["undef", 0]`:
true exactly when the value equals the string `"undef"` or the number `0`. -/
def fnumberUnrecorded (v : ExifValue) : Bool :=
  decide (v = ExifValue.str "undef") || decide (v = ExifValue.num 0)

/-- `Daemon.is_anamorphic`.  Returns `none` when the Python code would
raise (a numeric `FocalLength` makes `re.match` raise `TypeError`),
otherwise `some` of the boolean the method returns. -/
def is_anamorphic (md : ImageMetadata) : Option Bool :=
  match md.FocalLength with
  | ExifValue.num _ => none
  | ExifValue.str s =>
    match parseFocal s.data with
    | none => some false
    | some fl =>
      some (decide (fl ∈ POSSIBLE_ANAMORPHIC_FOCAL_LENGTHS) && fnumberUnrecorded md.FNumber)

/-- The shape the spec describes for a focal-length string accepted by
the classifier: a nonempty digit run, a dot, a nonempty digit run, the
literal `" mm"`, and then anything; the associated value is the integer
value of the first digit run. -/
def decimalMMShape (cs : List Char) (v : ℕ) : Prop :=
  ∃ d1 d2 rest, (∀ x ∈ d1, x.isDigit = true) ∧ (∀ x ∈ d2, x.isDigit = true) ∧
    d1 ≠ [] ∧ d2 ≠ [] ∧ cs = d1 ++ '.' :: (d2 ++ ' ' :: 'm' :: 'm' :: rest) ∧
    v = natOfDigits d1

/-! ## Exact model of the CPython floating-point arithmetic

`daemon.py` computes `round(height * 1.33)`, `round(new_width * height /
width)` and `round((height - thumbnail_height) / 2)` with CPython
semantics: Python `float` is an IEEE-754 binary64 (53-bit mantissa,
round-to-nearest, ties-to-even), `int / int` is the correctly rounded
double of the exact quotient, `int * float` converts the int exactly
(for values below `2 ^ 53`) and rounds the product once, and `round` on
a double is the exact half-even rounding of the double's value.  All
quantities involved are nonnegative, so the model works over `ℕ`. -/

/-- Round-to-nearest-even of the exact quotient `a / b`: the integer
nearest to `a / b`, a tie going to the even neighbour.  (Total: `b = 0`
never occurs in the claims; Python would raise `ZeroDivisionError`.) -/
def rneDiv (a b : ℕ) : ℕ :=
  let q := a / b
  let r := a % b
  if 2 * r < b then q
  else if b < 2 * r then q + 1
  else if q % 2 = 0 then q else q + 1

/-- Number of binary digits, by repeated halving; the first argument is
fuel, large enough whenever it is at least the second argument. -/
def bitLenGo : ℕ → ℕ → ℕ
  | 0, _ => 0
  | fuel + 1, n => if n = 0 then 0 else bitLenGo fuel (n / 2) + 1

/-- Number of binary digits of `n` (`0` for `n = 0`). -/
def bitLen (n : ℕ) : ℕ := bitLenGo n n

/-- The IEEE-754 binary64 nearest `a / b` (ties to even), returned as a
pair `(m, E)` of mantissa and exponent representing `m * 2 ^ (E - 52)`,
with `2 ^ 52 ≤ m ≤ 2 ^ 53` when `a ≠ 0`.  `E` is the floor of the base-2
logarithm of `a / b`, determined from the bit lengths plus one
comparison; the mantissa is the nearest-even 53-bit rounding of the
quotient scaled to `[2 ^ 52, 2 ^ 53)`. -/
def floatFrac (a b : ℕ) : ℕ × ℤ :=
  let d : ℤ := (bitLen a : ℤ) - (bitLen b : ℤ)
  let geD : Bool := if 0 ≤ d then decide (b * 2 ^ d.toNat ≤ a) else decide (b ≤ a * 2 ^ (-d).toNat)
  let E : ℤ := if geD then d else d - 1
  let m : ℕ :=
    if E ≤ 52 then rneDiv (a * 2 ^ (52 - E).toNat) b
    else rneDiv a (b * 2 ^ (E - 52).toNat)
  (m, E)

/-- Python `round(x)` where `x` is the double nearest `a / b`:
half-even rounding of the dyadic value `m * 2 ^ (E - 52)`. -/
def pyRoundPosDiv (a b : ℕ) : ℕ :=
  let p := floatFrac a b
  if 52 ≤ p.2 then p.1 * 2 ^ (p.2 - 52).toNat
  else rneDiv p.1 (2 ^ (52 - p.2).toNat)

/-- Mantissa of the binary64 value of the source constant
`ANAMORPHIC_SCALE_FACTOR = 1.33`: the double nearest `133 / 100`,
which is `ANAMORPHIC_SCALE_FACTOR_MANT / 2 ^ 52`. -/
def ANAMORPHIC_SCALE_FACTOR_MANT : ℕ := (floatFrac 133 100).1

/-- The Python expression `round(d * ANAMORPHIC_SCALE_FACTOR)` from
`Daemon.calculate_desqueezed_size`: the exact product of `float(d)`
and the double `1.33` is `d * ANAMORPHIC_SCALE_FACTOR_MANT / 2 ^ 52`;
IEEE multiplication rounds it once to a double, and `round` half-even
rounds that double to an integer. -/
def desqueezeRound (d : ℕ) : ℕ :=
  pyRoundPosDiv (d * ANAMORPHIC_SCALE_FACTOR_MANT) (2 ^ 52)

/-- `Daemon.calculate_desqueezed_size`: portrait images (width strictly
less than height) get the height stretched by 1.33, all others get the
width stretched. -/
def calculate_desqueezed_size (width height : ℕ) : ℕ × ℕ :=
  if width < height then (width, desqueezeRound height)
  else (desqueezeRound width, height)

/-- `Daemon.get_scaled_size`: `(new_width, round(new_width * height /
width))`, where the division is Python float division. -/
def get_scaled_size (width height new_width : ℕ) : ℕ × ℕ :=
  (new_width, pyRoundPosDiv (new_width * height) width)


/-! ## Trace model of the wand image operations

`Daemon.resize_srgb` and `Daemon.generate_jpeg_thumbnail` act on a
`wand.image.Image` by mutating it through a fixed sequence of library
calls.  The embedding keeps the observable image state (depth,
colorspace, format, quality, background, dimensions) and records every
call in an operation trace, so that ordering claims become statements
about the trace.  The `resize` operation additionally records the
ambient depth and colorspace at the moment of the resize. -/

/-- One wand library call. -/
inductive ImgOp where
  | setDepth (bits : ℕ)
  | setFormat (fmt : String)
  | setQuality (q : ℕ)
  | transformColorspace (cs : String)
  | resize (w h : ℕ) (filter : String) (depthAt : ℕ) (csAt : String)
  | thumbnailResize (w h : ℕ)
  | setBackground (c : String)
  | extent (w h : ℕ) (x y : ℤ)
  | save (path : String)
deriving DecidableEq

/-- Observable state of a `wand.image.Image` plus the trace of calls
made on it. -/
structure WandImage where
  depth : ℕ
  colorspace : String
  format : String
  quality : ℕ
  background : String
  width : ℕ
  height : ℕ
  ops : List ImgOp
deriving DecidableEq

/-- `image.depth = d`. -/
def wandSetDepth (img : WandImage) (d : ℕ) : WandImage :=
  { img with depth := d, ops := img.ops ++ [ImgOp.setDepth d] }

/-- `image.format = f`. -/
def wandSetFormat (img : WandImage) (f : String) : WandImage :=
  { img with format := f, ops := img.ops ++ [ImgOp.setFormat f] }

/-- `image.compression_quality = q`. -/
def wandSetQuality (img : WandImage) (q : ℕ) : WandImage :=
  { img with quality := q, ops := img.ops ++ [ImgOp.setQuality q] }

/-- `image.transform_colorspace(cs)`. -/
def wandTransformColorspace (img : WandImage) (cs : String) : WandImage :=
  { img with colorspace := cs, ops := img.ops ++ [ImgOp.transformColorspace cs] }

/-- `image.resize(w, h, filter)`; records the depth and colorspace the
image has when the resize is performed. -/
def wandResize (img : WandImage) (w h : ℕ) (filter : String) : WandImage :=
  { img with width := w, height := h,
             ops := img.ops ++ [ImgOp.resize w h filter img.depth img.colorspace] }

/-- `image.thumbnail(w, h)`: resize to exactly `w × h`. -/
def wandThumbnail (img : WandImage) (w h : ℕ) : WandImage :=
  { img with width := w, height := h, ops := img.ops ++ [ImgOp.thumbnailResize w h] }

/-- `image.background_color = c`. -/
def wandSetBackground (img : WandImage) (c : String) : WandImage :=
  { img with background := c, ops := img.ops ++ [ImgOp.setBackground c] }

/-- `image.extent(w, h, x, y)`: place the image on a `w × h` canvas
(filled with the background color) with its top-left corner shifted by
`(-x, -y)`. -/
def wandExtent (img : WandImage) (w h : ℕ) (x y : ℤ) : WandImage :=
  { img with width := w, height := h, ops := img.ops ++ [ImgOp.extent w h x y] }

/-- `image.save(filename=path)`. -/
def wandSave (img : WandImage) (path : String) : WandImage :=
  { img with ops := img.ops ++ [ImgOp.save path] }

/-- `Daemon.resize_srgb`: depth to 16, to linear RGB, lanczos2 resize,
back to sRGB, depth to 8. -/
def resize_srgb (img : WandImage) (new_width new_height : ℕ) : WandImage :=
  let i1 := wandSetDepth img 16
  let i2 := wandTransformColorspace i1 "rgb"
  let i3 := wandResize i2 new_width new_height "lanczos2"
  let i4 := wandTransformColorspace i3 "srgb"
  wandSetDepth i4 8

/-- Python `round((height - thumbnail_height) / 2)` from
`Daemon.generate_jpeg_thumbnail`, on the nonnegative integer
`k = height - thumbnail_height`.  For `k < 2 ^ 53` the double `k / 2`
is exact, so Python `round` is exactly the half-even rounding of
`k / 2`, which is `rneDiv k 2`. -/
def pyRoundHalf (k : ℕ) : ℕ := rneDiv k 2

/-- `Daemon.generate_jpeg_thumbnail`: clone, set format jpeg and
quality 95, scale to the requested width preserving aspect ratio, and,
when a pad height is given and strictly exceeds the scaled height,
center on a black `width × height` canvas via a negative vertical
extent offset; finally save.  Returns the final state of the clone. -/
def generate_jpeg_thumbnail (image : WandImage) (image_path : String)
    (width : ℕ) (height : Option ℕ) : WandImage :=
  let t1 := wandSetQuality (wandSetFormat image "jpeg") 95
  let sz := get_scaled_size t1.width t1.height width
  let t2 := wandThumbnail t1 sz.1 sz.2
  let t3 :=
    match height with
    | none => t2
    | some h =>
      if sz.2 < h then
        let offset : ℤ := -(pyRoundHalf (h - sz.2) : ℤ)
        wandExtent (wandSetBackground t2 "black") width h 0 offset
      else t2
  wandSave t3 image_path

/-- `Daemon.generate_jpeg_from_raw`: clone, set format jpeg and quality
95, and desqueeze-resize with `resize_srgb` to the dimensions from
`calculate_desqueezed_size` of the source image. -/
def generate_jpeg_from_raw (image : WandImage) : WandImage :=
  let j := wandSetQuality (wandSetFormat image "jpeg") 95
  let sz := calculate_desqueezed_size image.width image.height
  resize_srgb j sz.1 sz.2

/-! ## Orchestration model

`Daemon.desqueeze_file`, `Daemon.desqueeze` and the scheduler loop of
`scheduler.py` mix pure control flow with external effects (subprocess
calls, file I/O).  The control flow is embedded exactly; each external
step is a parameter of type `Except String Unit` giving that step's
outcome (`.ok` = the call returned normally, `.error` = it raised,
e.g. `subprocess.CalledProcessError` from `check=True`).  Errors are
modelled as strings. -/

/-- The exiftool argument list built by `Daemon.set_dng_anamorphic_ratio`
(CPython formats the float `1.33` as `"1.33"`).  The `-FocalLength`
override is appended only when `image_metadata["FocalLength"] == 0`,
which for an `ExifValue` holds exactly of the number `0`; a string
value never compares equal to `0` in Python. -/
def set_dng_anamorphic_scale_args (focal_length : String) (md : ImageMetadata)
    (image_path : String) : List String :=
  let args := ["/usr/bin/exiftool", "-overwrite_original_in_place", "-DefaultScale=1.33 1"]
  let args := if md.FocalLength = ExifValue.num 0
    then args ++ ["-FocalLength=" ++ focal_length] else args
  args ++ [image_path]

/-- Source constant `DEFAULT_FOCAL_LENGTH = "35.0A mm"`. -/
def DEFAULT_FOCAL_LENGTH : String := "35.0A mm"

/-- The actions of `Daemon.desqueeze_file` that touch the filesystem, in
source order.  `embedPreview` covers generating and embedding the
desqueezed preview thumbnail (`PreviewImage`); `embedJpgFromRaw` covers
saving and embedding the full desqueezed jpeg (`JpgFromRaw`). -/
inductive FileEvent where
  | convertToDng
  | openImage
  | setScaleTag
  | embedPreview
  | embedJpgFromRaw
  | unlinkOriginal
deriving DecidableEq

/-- Outcomes of the fallible steps inside `Daemon.desqueeze_file`, in
the order the method performs them: `dnglab` conversion, opening the
converted DNG with wand, the exiftool scale-tag write, and the two
thumbnail generate-and-embed sequences. -/
structure FileStepOutcomes where
  convertToDng : Except String Unit
  openImage : Except String Unit
  setScaleTag : Except String Unit
  embedPreview : Except String Unit
  embedJpgFromRaw : Except String Unit

/-- `Daemon.desqueeze_file`: runs the five fallible steps in order and
deletes the original file afterwards.  There is no exception handler in
the method, so the first raising step aborts it; the returned pair is
the list of actions that completed and the escaping exception, if any.
`filepath.unlink()` is the last statement, reached only when every
preceding step returned normally. -/
def desqueeze_file_events (o : FileStepOutcomes) : List FileEvent × Option String :=
  match o.convertToDng with
  | Except.error e => ([], some e)
  | Except.ok _ =>
    match o.openImage with
    | Except.error e => ([FileEvent.convertToDng], some e)
    | Except.ok _ =>
      match o.setScaleTag with
      | Except.error e => ([FileEvent.convertToDng, FileEvent.openImage], some e)
      | Except.ok _ =>
        match o.embedPreview with
        | Except.error e =>
          ([FileEvent.convertToDng, FileEvent.openImage, FileEvent.setScaleTag], some e)
        | Except.ok _ =>
          match o.embedJpgFromRaw with
          | Except.error e =>
            ([FileEvent.convertToDng, FileEvent.openImage, FileEvent.setScaleTag,
              FileEvent.embedPreview], some e)
          | Except.ok _ =>
            ([FileEvent.convertToDng, FileEvent.openImage, FileEvent.setScaleTag,
              FileEvent.embedPreview, FileEvent.embedJpgFromRaw, FileEvent.unlinkOriginal],
             none)

/-- One file of a scan, as `Daemon.desqueeze` sees it: the outcome of
`get_metadata` for it, and the outcome `desqueeze_file` would have if
invoked. -/
structure FileJob where
  metadata : Except String ImageMetadata
  processOutcome : Except String Unit

/-- The body of the `for` loop in `Daemon.desqueeze` for one file:
read metadata, skip non-ARW files, classify, and desqueeze when
anamorphic.  Returns `.ok b` (`b` = file was desqueezed) or the
exception that escapes the body; the body contains no handler. -/
def desqueeze_one (job : FileJob) : Except String Bool :=
  match job.metadata with
  | Except.error e => Except.error e
  | Except.ok md =>
    if md.FileType = "ARW" then
      match is_anamorphic md with
      | none => Except.error "TypeError"
      | some true =>
        match job.processOutcome with
        | Except.error e => Except.error e
        | Except.ok _ => Except.ok true
      | some false => Except.ok false
    else Except.ok false

/-- The `for filepath in file_paths` loop of `Daemon.desqueeze`: the
files whose loop body was entered, in order, and the exception escaping
the loop, if any.  `Daemon.desqueeze` has no `try`/`except`, so the
first exception aborts the loop and the remaining files are not
visited. -/
def desqueeze_scan : List FileJob → List FileJob × Option String
  | [] => ([], none)
  | j :: js =>
    match desqueeze_one j with
    | Except.error e => ([j], some e)
    | Except.ok _ =>
      let p := desqueeze_scan js
      (j :: p.1, p.2)

/-- The result of one whole `Daemon.desqueeze` call on the given files:
`.ok` when the scan finished, `.error` when an exception escaped it. -/
def scan_result (jobs : List FileJob) : Except String Unit :=
  match (desqueeze_scan jobs).2 with
  | none => Except.ok ()
  | some e => Except.error e

/-- The `while True: schedule.run_pending(); time.sleep(10)` loop of
`scheduler.py`, run for at most `fuel` scheduled scans; `scan i` is the
outcome of the i-th `Daemon.desqueeze` call.  Neither the loop nor the
`schedule` library installs an exception handler, so a raising scan
terminates the loop (and the process).  Returns how many scans
completed and the escaping exception, if any. -/
def scheduler_go (scan : ℕ → Except String Unit) : ℕ → ℕ → ℕ × Option String
  | i, 0 => (i, none)
  | i, fuel + 1 =>
    match scan i with
    | Except.error e => (i, some e)
    | Except.ok _ => scheduler_go scan (i + 1) fuel

/-- An anamorphic ARW file whose processing raises
(e.g. a failing dnglab or exiftool subprocess). -/
def jobBad : FileJob :=
  ⟨Except.ok ⟨"ARW", ExifValue.str "24.0 mm", ExifValue.str "undef"⟩,
   Except.error "CalledProcessError"⟩

/-- An anamorphic ARW file whose processing would succeed. -/
def jobGood : FileJob :=
  ⟨Except.ok ⟨"ARW", ExifValue.str "50.0 mm", ExifValue.str "undef"⟩, Except.ok ()⟩

/-! ## Sanity checks on concrete inputs -/

example : is_anamorphic ⟨"ARW", ExifValue.str "24.0 mm", ExifValue.str "undef"⟩ = some true := by
  decide

example : is_anamorphic ⟨"ARW", ExifValue.str "24.0A mm", ExifValue.str "undef"⟩ = some false := by
  decide

example : is_anamorphic ⟨"ARW", ExifValue.str "garbage", ExifValue.str "undef"⟩ = some false := by
  decide

example : is_anamorphic ⟨"ARW", ExifValue.str "24.0 mm", ExifValue.num (mkRat 14 5)⟩ = some false := by
  decide

example : bitLen 0 = 0 ∧ bitLen 1 = 1 ∧ bitLen 2 = 2 ∧ bitLen 3 = 2 ∧ bitLen 4 = 3 := by decide

example : bitLen (2 ^ 52) = 53 ∧ bitLen (2 ^ 52 - 1) = 52 := by decide

example : ANAMORPHIC_SCALE_FACTOR_MANT = 5989787504402760 := by decide

example : (floatFrac 133 100).2 = 0 := by decide

example : calculate_desqueezed_size 1920 1080 = (2554, 1080) := by decide
example : calculate_desqueezed_size 1080 1920 = (1080, 2554) := by decide
example : desqueezeRound 50 = 66 := by decide
example : desqueezeRound 150 = 200 := by decide
example : get_scaled_size 4000 3000 1024 = (1024, 768) := by decide

/-! ## Parser characterization lemmas -/

/-- Greedy digit scanning over a digit run followed by a non-digit:
`takeWhile` keeps exactly the run and `dropWhile` keeps the rest. -/
lemma takeWhile_digits_append (d : List Char) (c : Char) (r : List Char)
    (hd : ∀ x ∈ d, x.isDigit = true) (hc : c.isDigit = false) :
    (d ++ c :: r).takeWhile (fun x => x.isDigit) = d ∧
    (d ++ c :: r).dropWhile (fun x => x.isDigit) = c :: r := by
  induction d with
  | nil => simp [List.takeWhile_cons, List.dropWhile_cons, hc]
  | cons a as ih =>
    have ha : a.isDigit = true := hd a (by simp)
    have hrest : ∀ x ∈ as, x.isDigit = true := fun x hx => hd x (by simp [hx])
    obtain ⟨ih1, ih2⟩ := ih hrest
    simp [List.takeWhile_cons, List.dropWhile_cons, ha, ih1, ih2]

/-- Parser completeness: every string of the accepted shape parses to
the value of its leading digit run. -/
lemma parseFocal_of_shape (cs : List Char) (v : ℕ) (h : decimalMMShape cs v) :
    parseFocal cs = some v := by
  obtain ⟨d1, d2, rest, hd1, hd2, h1, h2, hcs, hv⟩ := h
  obtain ⟨ht1, hr1⟩ :=
    takeWhile_digits_append d1 '.' (d2 ++ ' ' :: 'm' :: 'm' :: rest) hd1 (by decide)
  obtain ⟨ht2, hr2⟩ := takeWhile_digits_append d2 ' ' ('m' :: 'm' :: rest) hd2 (by decide)
  subst hcs hv
  simp only [parseFocal, ht1, hr1, ht2, hr2, if_neg h1, if_neg h2]

/-- Parser soundness: a successful parse exhibits the accepted shape. -/
lemma parseFocal_shape (cs : List Char) (v : ℕ) (h : parseFocal cs = some v) :
    decimalMMShape cs v := by
  have hsplit : cs.takeWhile (fun x => x.isDigit) ++ cs.dropWhile (fun x => x.isDigit) = cs :=
    List.takeWhile_append_dropWhile _ _
  simp only [parseFocal] at h
  split at h
  · exact Option.noConfusion h
  · rename_i h1
    split at h
    · rename_i rest hr1
      split at h
      · exact Option.noConfusion h
      · rename_i h2
        split at h
        · rename_i tail hr2
          have hsplit2 :
              rest.takeWhile (fun x => x.isDigit) ++ rest.dropWhile (fun x => x.isDigit) = rest :=
            List.takeWhile_append_dropWhile _ _
          refine ⟨cs.takeWhile (fun x => x.isDigit), rest.takeWhile (fun x => x.isDigit), tail,
            fun x hx => List.mem_takeWhile_imp hx, fun x hx => List.mem_takeWhile_imp hx,
            h1, h2, ?_, ?_⟩
          · have hcs2 : cs = cs.takeWhile (fun x => x.isDigit) ++ '.' :: rest := by
              rw [← hr1, hsplit]
            have hrest2 :
                rest = rest.takeWhile (fun x => x.isDigit) ++ ' ' :: 'm' :: 'm' :: tail := by
              rw [← hr2, hsplit2]
            conv_lhs => rw [hcs2]
            conv_lhs => rw [hrest2]
          · exact (Option.some.inj h).symm
        · exact Option.noConfusion h
    · exact Option.noConfusion h

/-- A qualifier character (non-digit, non-space) between the second
digit run and `" mm"` makes the parse fail: the regex has no room for
it before the literal `" mm"`. -/
lemma parseFocal_qualifier_none (d1 d2 : List Char) (c : Char) (rest : List Char)
    (hd1 : ∀ x ∈ d1, x.isDigit = true) (hd2 : ∀ x ∈ d2, x.isDigit = true)
    (h1 : d1 ≠ []) (h2 : d2 ≠ [])
    (hc : c.isDigit = false) (hcsp : c ≠ ' ') :
    parseFocal (d1 ++ '.' :: (d2 ++ c :: rest)) = none := by
  obtain ⟨ht1, hr1⟩ := takeWhile_digits_append d1 '.' (d2 ++ c :: rest) hd1 (by decide)
  obtain ⟨ht2, hr2⟩ := takeWhile_digits_append d2 c rest hd2 hc
  simp only [parseFocal, ht1, hr1, ht2, hr2, if_neg h1, if_neg h2]
  split
  · rename_i heq
    exact absurd (List.head_eq_of_cons_eq heq) hcsp
  · rfl

/-! ## Claims about the classifier -/

/-- C1: `classify` returns anamorphic iff the focal-length string has
the decimal-millimeter shape, the truncated integer value (the digits
before the dot) lies in {0, 24, 50}, and the f-number is the `"undef"`
sentinel or the number 0; in particular `"24.0 mm"` with FNumber 2.8
is classified not-anamorphic. -/
theorem C1_classify_characterization :
    (∀ md : ImageMetadata,
      is_anamorphic md = some true ↔
        ∃ s v, md.FocalLength = ExifValue.str s ∧ decimalMMShape s.data v ∧
          v ∈ POSSIBLE_ANAMORPHIC_FOCAL_LENGTHS ∧
          (md.FNumber = ExifValue.str "undef" ∨ md.FNumber = ExifValue.num 0)) ∧
    is_anamorphic ⟨"ARW", ExifValue.str "24.0 mm", ExifValue.num (mkRat 14 5)⟩ = some false ∧
    (mkRat 14 5 : ℚ) = 2.8 := by
  refine ⟨?_, by decide, by norm_num [mkRat]⟩
  intro md
  obtain ⟨ft, fl, fn⟩ := md
  constructor
  · intro h
    cases fl with
    | num q => exact Option.noConfusion h
    | str s =>
      simp only [is_anamorphic] at h
      cases hp : parseFocal s.data with
      | none => rw [hp] at h; exact absurd (Option.some.inj h) (by decide)
      | some v =>
        rw [hp] at h
        have hb := Option.some.inj h
        rw [Bool.and_eq_true] at hb
        obtain ⟨hmem, hfn⟩ := hb
        refine ⟨s, v, rfl, parseFocal_shape _ _ hp, of_decide_eq_true hmem, ?_⟩
        simpa [fnumberUnrecorded, decide_eq_true_eq] using hfn
  · rintro ⟨s, v, hfl, hshape, hmem, hfn⟩
    cases hfl
    simp only [is_anamorphic, parseFocal_of_shape _ _ hshape]
    have h1 : decide (v ∈ POSSIBLE_ANAMORPHIC_FOCAL_LENGTHS) = true := decide_eq_true hmem
    have h2 : fnumberUnrecorded fn = true := by
      simp only [fnumberUnrecorded, Bool.or_eq_true, decide_eq_true_eq]
      exact hfn
    rw [h1, h2]
    rfl

/-- C1 witness: a focal length of the accepted shape with trailing
characters after `" mm"`, value 50 and numeric f-number 0 classifies
anamorphic. -/
theorem C1_witness :
    is_anamorphic ⟨"ARW", ExifValue.str "50.0 mm abc", ExifValue.num 0⟩ = some true :=
  (C1_classify_characterization.1 _).mpr
    ⟨"50.0 mm abc", 50, rfl,
      ⟨['5', '0'], ['0'], [' ', 'a', 'b', 'c'], by decide, by decide, by decide, by decide,
        by decide, by decide⟩,
      by decide, Or.inr rfl⟩

/-- C5 counterexample: the focal-length pattern does NOT allow a
qualifier letter before `" mm"`: the record the claim says is
anamorphic (`"24.0A mm"`, FNumber undefined) is classified
not-anamorphic. -/
theorem C5_counterexample :
    is_anamorphic ⟨"ARW", ExifValue.str "24.0A mm", ExifValue.str "undef"⟩ ≠ some true ∧
    is_anamorphic ⟨"ARW", ExifValue.str "24.0A mm", ExifValue.str "undef"⟩ = some false := by
  decide

/-- C5 amended: a focal-length string of the form
`<digits>.<digits><qualifier> mm`, with a non-digit non-space qualifier
character before `" mm"`, never matches the classifier's pattern, so
`classify` returns anamorphic=false regardless of the digits and of the
f-number (the regex allows trailing characters only after `" mm"`). -/
theorem C5_amended_qualifier_not_matched (md : ImageMetadata) (s : String)
    (d1 d2 tail : List Char) (c : Char)
    (hfl : md.FocalLength = ExifValue.str s)
    (hd1 : ∀ x ∈ d1, x.isDigit = true) (hd2 : ∀ x ∈ d2, x.isDigit = true)
    (h1 : d1 ≠ []) (h2 : d2 ≠ [])
    (hc : c.isDigit = false) (hcsp : c ≠ ' ')
    (hs : s.data = d1 ++ '.' :: (d2 ++ c :: (' ' :: 'm' :: 'm' :: tail))) :
    is_anamorphic md = some false := by
  obtain ⟨ft, fl, fn⟩ := md
  cases hfl
  simp only [is_anamorphic, hs,
    parseFocal_qualifier_none d1 d2 c (' ' :: 'm' :: 'm' :: tail) hd1 hd2 h1 h2 hc hcsp]

/-- C5 witness for the amended claim: `"24.0A mm"` (qualifier `A`
before `" mm"`, candidate value 24, f-number 0) is not anamorphic. -/
theorem C5_amended_witness :
    is_anamorphic ⟨"ARW", ExifValue.str "24.0A mm", ExifValue.num 0⟩ = some false :=
  C5_amended_qualifier_not_matched ⟨"ARW", ExifValue.str "24.0A mm", ExifValue.num 0⟩
    "24.0A mm" ['2', '4'] ['0'] [] 'A' rfl (by decide) (by decide) (by decide) (by decide)
    (by decide) (by decide) (by decide)

/-- C9: when the focal-length string has no decimal-millimeter shape,
`classify` returns anamorphic=false, and for any string focal length it
returns a value rather than raising. -/
theorem C9_unparsed_fails_open (md : ImageMetadata) (s : String)
    (hfl : md.FocalLength = ExifValue.str s)
    (hns : ¬ ∃ v, decimalMMShape s.data v) :
    is_anamorphic md = some false ∧ (is_anamorphic md).isSome = true := by
  obtain ⟨ft, fl, fn⟩ := md
  cases hfl
  cases hp : parseFocal s.data with
  | none => simp [is_anamorphic, hp]
  | some v => exact absurd ⟨v, parseFocal_shape _ _ hp⟩ hns

/-- C9 witness: `"garbage"` is classified not-anamorphic without
raising. -/
theorem C9_witness :
    is_anamorphic ⟨"ARW", ExifValue.str "garbage", ExifValue.str "undef"⟩ = some false ∧
    (is_anamorphic ⟨"ARW", ExifValue.str "garbage", ExifValue.str "undef"⟩).isSome = true :=
  C9_unparsed_fails_open _ "garbage" rfl (fun hex => by
    obtain ⟨v, hsh⟩ := hex
    have hp := parseFocal_of_shape _ _ hsh
    have hn : parseFocal "garbage".data = none := by decide
    rw [hn] at hp
    exact Option.noConfusion hp)

/-! ## Claims about the geometry -/

/-- C4: for positive dimensions, portrait images keep the width and
stretch the height by the 1.33 factor, all other images keep the height
and stretch the width; `(1920, 1080)` gives `(2554, 1080)` and
`(1080, 1920)` gives `(1080, 2554)`. -/
theorem C4_desqueezed_size (w h : ℕ) (hw : 0 < w) (hh : 0 < h) :
    (w < h → calculate_desqueezed_size w h = (w, desqueezeRound h)) ∧
    (¬ w < h → calculate_desqueezed_size w h = (desqueezeRound w, h)) ∧
    calculate_desqueezed_size 1920 1080 = (2554, 1080) ∧
    calculate_desqueezed_size 1080 1920 = (1080, 2554) :=
  ⟨fun hlt => by simp [calculate_desqueezed_size, hlt],
   fun hge => by simp [calculate_desqueezed_size, hge],
   by decide, by decide⟩

/-- C4 witness: the landscape example, at concrete positive input. -/
theorem C4_witness :
    calculate_desqueezed_size 1920 1080 = (2554, 1080) ∧
    calculate_desqueezed_size 1920 1080 = (desqueezeRound 1920, 1080) :=
  ⟨(C4_desqueezed_size 1920 1080 (by decide) (by decide)).2.2.1,
   (C4_desqueezed_size 1920 1080 (by decide) (by decide)).2.1 (by decide)⟩

/-- C6 counterexample: at the half-integer boundary the claim cites,
`50 * 1.33` is exactly `66.5` in double arithmetic, and the code
produces 66; the claim's "ties away from zero" demands 67. -/
theorem C6_counterexample :
    desqueezeRound 50 = 66 ∧
    calculate_desqueezed_size 50 40 = (66, 40) ∧
    calculate_desqueezed_size 50 40 ≠ (67, 40) := by
  decide

/-- C6 amended: the rounding on the stretched axis is Python `round`,
i.e. round-half-to-even on the double product.  `50 * 1.33` is exactly
the half-integer `66.5` (mantissa 4679521487814656, exponent 6, and
`4679521487814656 * 2 = 133 * 2 ^ 46`, so the value is `133 / 2`); it
rounds to the even neighbour 66.  `150 * 1.33` is exactly `199.5`
(`7019282231721984 * 2 ^ (7 - 52)`, and `7019282231721984 * 2 =
399 * 2 ^ 45`), which rounds to the even neighbour 200 — ties go to
the even integer, downward or upward, never systematically away from
zero. -/
theorem C6_amended_round_half_even :
    floatFrac (50 * ANAMORPHIC_SCALE_FACTOR_MANT) (2 ^ 52) = (4679521487814656, 6) ∧
    4679521487814656 * 2 = 133 * 2 ^ 46 ∧
    desqueezeRound 50 = 66 ∧
    floatFrac (150 * ANAMORPHIC_SCALE_FACTOR_MANT) (2 ^ 52) = (7019282231721984, 7) ∧
    7019282231721984 * 2 = 399 * 2 ^ 45 ∧
    desqueezeRound 150 = 200 ∧
    calculate_desqueezed_size 50 40 = (66, 40) ∧
    calculate_desqueezed_size 150 100 = (200, 100) := by
  decide

/-! ## Claims about the image transform -/

/-- C7: the desqueeze resize performs, in order: depth to 16 bits,
conversion to the linear `rgb` colorspace, the `lanczos2` (two-lobe
Lanczos) resize to the target dimensions, conversion to `srgb`, and
depth back to 8 bits; the recorded resize op carries depth 16 and
colorspace `rgb`, i.e. it happens between the two conversions. -/
theorem C7_resize_protocol (img : WandImage) (w h : ℕ) :
    (resize_srgb img w h).ops =
      img.ops ++ [ImgOp.setDepth 16, ImgOp.transformColorspace "rgb",
        ImgOp.resize w h "lanczos2" 16 "rgb", ImgOp.transformColorspace "srgb",
        ImgOp.setDepth 8] ∧
    (resize_srgb img w h).depth = 8 ∧
    (resize_srgb img w h).colorspace = "srgb" ∧
    (resize_srgb img w h).width = w ∧
    (resize_srgb img w h).height = h := by
  simp [resize_srgb, wandSetDepth, wandTransformColorspace, wandResize]

/-- Half-even rounding of `k / 2` stays within the bounds that make the
two padding bars differ by at most one pixel. -/
lemma pyRoundHalf_bars (k : ℕ) :
    pyRoundHalf k ≤ k ∧ k ≤ 2 * pyRoundHalf k + 1 ∧ 2 * pyRoundHalf k ≤ k + 1 := by
  simp only [pyRoundHalf, rneDiv]
  split
  · omega
  · split
    · omega
    · split <;> omega

/-- C8: when a pad height is supplied and strictly exceeds the scaled
height, the thumbnail trace is: jpeg format, quality 95, aspect-ratio
resize to `(w, th)`, black background, and an extent to the
`(w, padToHeight)` canvas at vertical offset
`-round((padToHeight - scaledHeight) / 2)`; the resulting bars
`offset` and `(padToHeight - scaledHeight) - offset` differ by at most
one.  When the pad height is absent or does not exceed the scaled
height, no background or extent operation is performed. -/
theorem C8_thumbnail_padding (img : WandImage) (p : String) (w hh th : ℕ)
    (hth : th = (get_scaled_size img.width img.height w).2) :
    (th < hh →
      (generate_jpeg_thumbnail img p w (some hh)).ops =
        img.ops ++ [ImgOp.setFormat "jpeg", ImgOp.setQuality 95, ImgOp.thumbnailResize w th,
          ImgOp.setBackground "black", ImgOp.extent w hh 0 (-(pyRoundHalf (hh - th) : ℤ)),
          ImgOp.save p] ∧
      (generate_jpeg_thumbnail img p w (some hh)).width = w ∧
      (generate_jpeg_thumbnail img p w (some hh)).height = hh ∧
      (generate_jpeg_thumbnail img p w (some hh)).background = "black" ∧
      pyRoundHalf (hh - th) + ((hh - th) - pyRoundHalf (hh - th)) = hh - th ∧
      (hh - th) ≤ 2 * pyRoundHalf (hh - th) + 1 ∧
      2 * pyRoundHalf (hh - th) ≤ (hh - th) + 1) ∧
    (¬ th < hh →
      (generate_jpeg_thumbnail img p w (some hh)).ops =
        img.ops ++ [ImgOp.setFormat "jpeg", ImgOp.setQuality 95, ImgOp.thumbnailResize w th,
          ImgOp.save p]) ∧
    (generate_jpeg_thumbnail img p w none).ops =
      img.ops ++ [ImgOp.setFormat "jpeg", ImgOp.setQuality 95, ImgOp.thumbnailResize w th,
        ImgOp.save p] := by
  subst hth
  have hfst : ∀ a b c : ℕ, (get_scaled_size a b c).1 = c := fun _ _ _ => rfl
  refine ⟨fun hlt => ?_, fun hge => ?_, ?_⟩
  · obtain ⟨b1, b2, b3⟩ := pyRoundHalf_bars (hh - (get_scaled_size img.width img.height w).2)
    refine ⟨?_, ?_, ?_, ?_, by omega, b2, b3⟩ <;>
      simp [generate_jpeg_thumbnail, wandSetFormat, wandSetQuality, wandThumbnail,
        wandSetBackground, wandExtent, wandSave, hlt, hfst]
  · simp [generate_jpeg_thumbnail, wandSetFormat, wandSetQuality, wandThumbnail, wandSave,
      hge, hfst]
  · simp [generate_jpeg_thumbnail, wandSetFormat, wandSetQuality, wandThumbnail, wandSave, hfst]

/-- C8 witness: a 2554 x 1080 image scaled to width 1024 (scaled height
433) and padded to 768 is centered with offset -168 (bars 168 and
167). -/
theorem C8_witness :
    (generate_jpeg_thumbnail ⟨8, "srgb", "", 0, "", 2554, 1080, []⟩ "t.jpg" 1024
        (some 768)).ops =
      [ImgOp.setFormat "jpeg", ImgOp.setQuality 95, ImgOp.thumbnailResize 1024 433,
       ImgOp.setBackground "black", ImgOp.extent 1024 768 0 (-168), ImgOp.save "t.jpg"] := by
  have h := (C8_thumbnail_padding ⟨8, "srgb", "", 0, "", 2554, 1080, []⟩ "t.jpg" 1024 768 433
    (by decide)).1 (by decide)
  rw [h.1]
  decide

/-! ## Claims about error propagation and the tag writer -/

/-- C3: the original file is deleted only strictly after the DNG
conversion, the container open, the scale-tag write and both thumbnail
embeds all succeeded; when all succeed the unlink is the last action,
and whenever any step raises, the unlink never happens. -/
theorem C3_unlink_only_after_success (o : FileStepOutcomes) :
    (FileEvent.unlinkOriginal ∈ (desqueeze_file_events o).1 ↔
      o.convertToDng = Except.ok () ∧ o.openImage = Except.ok () ∧
      o.setScaleTag = Except.ok () ∧ o.embedPreview = Except.ok () ∧
      o.embedJpgFromRaw = Except.ok ()) ∧
    ((desqueeze_file_events o).2 = none →
      (desqueeze_file_events o).1 =
        [FileEvent.convertToDng, FileEvent.openImage, FileEvent.setScaleTag,
         FileEvent.embedPreview, FileEvent.embedJpgFromRaw, FileEvent.unlinkOriginal]) ∧
    (∀ e, (desqueeze_file_events o).2 = some e →
      FileEvent.unlinkOriginal ∉ (desqueeze_file_events o).1) := by
  obtain ⟨c, oi, st, ep, ej⟩ := o
  cases c <;> cases oi <;> cases st <;> cases ep <;> cases ej <;>
    simp [desqueeze_file_events]

/-- C3 witness: with a failing preview embed, the original file is not
unlinked. -/
theorem C3_witness :
    FileEvent.unlinkOriginal ∉
      (desqueeze_file_events
        ⟨Except.ok (), Except.ok (), Except.ok (), Except.error "CalledProcessError",
         Except.ok ()⟩).1 :=
  (C3_unlink_only_after_success
    ⟨Except.ok (), Except.ok (), Except.ok (), Except.error "CalledProcessError",
     Except.ok ()⟩).2.2 "CalledProcessError" rfl

/-- C2 counterexample: a failure on the first file is NOT caught at the
orchestrator boundary: the scan visits only the failing file (the
second file is never processed), the exception escapes
`Daemon.desqueeze`, and the scheduler loop terminates at the first
scan with the exception instead of running further scans. -/
theorem C2_counterexample :
    desqueeze_scan [jobBad, jobGood] = ([jobBad], some "CalledProcessError") ∧
    (desqueeze_scan [jobBad, jobGood]).1.length = 1 ∧
    scan_result [jobBad, jobGood] = Except.error "CalledProcessError" ∧
    scheduler_go (fun _ => scan_result [jobBad, jobGood]) 0 3 =
      (0, some "CalledProcessError") := by
  refine ⟨?_, ?_, ?_, ?_⟩ <;> rfl

/-- C2 amended: a per-file failure propagates: when the loop body
raises on a file, `Daemon.desqueeze` aborts with that exception, the
remaining files of the scan are not visited, and the un-handled
exception terminates the scheduler loop on that scan. -/
theorem C2_amended_error_escapes (j : FileJob) (js : List FileJob) (e : String)
    (h : desqueeze_one j = Except.error e) :
    desqueeze_scan (j :: js) = ([j], some e) ∧
    scan_result (j :: js) = Except.error e ∧
    ∀ n, scheduler_go (fun _ => scan_result (j :: js)) 0 (n + 1) = (0, some e) := by
  have h1 : desqueeze_scan (j :: js) = ([j], some e) := by
    simp [desqueeze_scan, h]
  have h2 : scan_result (j :: js) = Except.error e := by
    simp [scan_result, h1]
  exact ⟨h1, h2, fun n => by simp [scheduler_go, h2]⟩

/-- C2 witness for the amended claim: the failing job aborts the scan
and the scheduler terminates with zero completed scans. -/
theorem C2_witness :
    desqueeze_scan [jobBad, jobGood] = ([jobBad], some "CalledProcessError") ∧
    scheduler_go (fun _ => scan_result [jobBad, jobGood]) 0 1 =
      (0, some "CalledProcessError") :=
  ⟨(C2_amended_error_escapes jobBad [jobGood] "CalledProcessError" rfl).1,
   (C2_amended_error_escapes jobBad [jobGood] "CalledProcessError" rfl).2.2 0⟩

/-- C10: the `-FocalLength` override is appended exactly when the
metadata FocalLength compares equal to the number 0; for any string
FocalLength (the format the metadata reader produces, including
`"0.0 mm"`), the argument list carries only the DefaultScale tag (plus
the fixed flags and the image path). -/
theorem C10_focal_override_only_numeric_zero (focal : String) (md : ImageMetadata)
    (path : String) :
    (md.FocalLength = ExifValue.num 0 →
      set_dng_anamorphic_scale_args focal md path =
        ["/usr/bin/exiftool", "-overwrite_original_in_place", "-DefaultScale=1.33 1",
         "-FocalLength=" ++ focal, path]) ∧
    (md.FocalLength ≠ ExifValue.num 0 →
      set_dng_anamorphic_scale_args focal md path =
        ["/usr/bin/exiftool", "-overwrite_original_in_place", "-DefaultScale=1.33 1", path]) ∧
    (∀ s, md.FocalLength = ExifValue.str s → md.FocalLength ≠ ExifValue.num 0) := by
  refine ⟨fun h0 => by simp [set_dng_anamorphic_scale_args, h0],
    fun hne => by simp [set_dng_anamorphic_scale_args, hne],
    fun s hs => by rw [hs]; exact fun hc => ExifValue.noConfusion hc⟩

/-- C10 witness: with the string focal length `"0.0 mm"` the override
is not added. -/
theorem C10_witness :
    set_dng_anamorphic_scale_args DEFAULT_FOCAL_LENGTH
        ⟨"ARW", ExifValue.str "0.0 mm", ExifValue.str "undef"⟩ "img.dng" =
      ["/usr/bin/exiftool", "-overwrite_original_in_place", "-DefaultScale=1.33 1",
       "img.dng"] :=
  (C10_focal_override_only_numeric_zero DEFAULT_FOCAL_LENGTH
    ⟨"ARW", ExifValue.str "0.0 mm", ExifValue.str "undef"⟩ "img.dng").2.1 (by decide)
